import Mathlib

/-!
The command `devpod up`: the remote agent bootstrap of `cmd/up.go`.

A shallow embedding of `UpCmd.Run`, `devPodUp` and `devPodUpServer`.

* Go strings are Lean strings, `+` is `++`.
* A Go `error` is an `Option String`: `none` is `nil`.
* The collaborators that live in other packages (`startWait`, `configureSSH`,
  `exec.Command(..).Run`, `template.FillTemplate`, `agent.StartTunnelServer`, the
  provider's `Command`) and the three constants of other packages are the
  fields of `World`; nothing is assumed about what they return.
* Every call the flow makes is appended to a trace of `Event`s.
* The goroutine started by `devPodUpServer` assigns to the variable `err` of the
  enclosing function, which the foreground flow assigns and reads as well; the
  two threads are interleaved by an explicit schedule, one shared-variable
  access per step.
-/

namespace DevPod

/-! ## Data model -/

/-- Go `error`: `none` is `nil`, `some msg` a non-nil error. -/
abbrev Error := Option String

/-- The source of a workspace (`provider2.WorkspaceSource`). -/
structure WorkspaceSource where
  GitRepository : String
  Image : String
  LocalFolder : String
deriving DecidableEq, Repr

/-- A workspace (`provider2.Workspace`), the fields `up.go` reads. -/
structure Workspace where
  ID : String
  Context : String
  Source : WorkspaceSource
deriving DecidableEq, Repr

/-- The streams handed around by `devPodUpServer`: the two ends of the pipe
number `n` made by `io.Pipe()`, and `os.Stderr`. -/
inductive Stream where
  | pipeReader (n : Nat)
  | pipeWriter (n : Nat)
  | osStderr
deriving DecidableEq, Repr

/-- The value `provider2.CommandOptions`. -/
structure CommandOptions where
  Command : String
  Stdin : Stream
  Stdout : Stream
  Stderr : Stream
deriving DecidableEq, Repr

/-- A provider: either it only satisfies `provider2.Provider`, or it also
satisfies `provider2.ServerProvider` and then carries its `Command` method. -/
inductive Provider where
  | basic
  | server (Command : Workspace → CommandOptions → Error)

/-- The calls and effects of `up.go`, in the order they happen. -/
inductive Event where
  /-- The call `startWait(ctx, provider, workspace, waitForRunning, log.Default)`. -/
  | startWait (workspace : Workspace) (waitForRunning : Bool)
  /-- A line logged with `Infof`. -/
  | infof (msg : String)
  /-- A line logged with `Errorf`. -/
  | errorf (msg : String)
  /-- The call `template.FillTemplate(template, vars)`. -/
  | fillTemplate (template : String) (vars : List (String × String))
  /-- The call `io.Pipe()` that made the pipe number `n`. -/
  | pipe (n : Nat)
  /-- The `go` statement: a goroutine that calls
  `agent.StartTunnelServer(reader, writer, flag, localFolder, log)`. -/
  | goTunnel (reader writer : Stream) (flag : Bool) (localFolder : String)
  /-- In the goroutine, `agent.StartTunnelServer` returned `result`. -/
  | tunnelReturned (result : Error)
  /-- The call `provider.Command(ctx, workspace, options)`. -/
  | command (workspace : Workspace) (options : CommandOptions)
  /-- A call of `Close` on a pipe end by `up.go`; the file has no such call. -/
  | close (s : Stream)
  /-- The call `configureSSH(context, id, user)`. -/
  | configureSSH (context id user : String)
  /-- The call `exec.Command(name, args...).Run()`. -/
  | exec (name : String) (args : List String)
deriving DecidableEq, Repr

/-- The events of the goroutine; all others are events of the foreground flow. -/
def Event.isBackground : Event → Bool
  | .tunnelReturned _ => true
  | .errorf _ => true
  | _ => false

/-- What the rest of the program and the outside supply. -/
structure World where
  /-- The constant `agent.RemoteDevPodHelperLocation`. -/
  RemoteDevPodHelperLocation : String
  /-- The constant `agent.DefaultAgentDownloadURL`. -/
  DefaultAgentDownloadURL : String
  /-- The constant `scripts.InstallDevPodTemplate`. -/
  InstallDevPodTemplate : String
  /-- The function `template.FillTemplate`. -/
  FillTemplate : String → List (String × String) → Except String String
  /-- The function `startWait` of package `cmd`. -/
  startWait : Provider → Workspace → Bool → Error
  /-- The function `agent.StartTunnelServer`: what it returns when it returns. -/
  StartTunnelServer : Stream → Stream → Bool → String → Error
  /-- The function `configureSSH` of package `cmd`. -/
  configureSSH : String → String → String → Error
  /-- The call `exec.Command(name, args...).Run()`. -/
  execRun : String → List String → Error

/-- The state threaded through the flow: the trace so far and the number of
the next pipe `io.Pipe()` makes. -/
structure State where
  trace : List Event
  nextPipe : Nat
deriving DecidableEq, Repr

/-- The state `Run` starts in. -/
def State.init : State := ⟨[], 0⟩

/-- Append one event to the trace. -/
def State.emit (s : State) (e : Event) : State :=
  { s with trace := s.trace ++ [e] }

/-! ## The remote command (lines 96-103 of `up.go`) -/

/-- The value of the variable `command` of `devPodUpServer` after the
`if`/`else if` chain. -/
def remoteCommand (w : World) (workspace : Workspace) : String :=
  let command := "sudo " ++ w.RemoteDevPodHelperLocation ++ " agent up --id " ++ workspace.ID ++ " "
  if workspace.Source.GitRepository ≠ "" then
    command ++ ("--repository " ++ workspace.Source.GitRepository)
  else if workspace.Source.Image ≠ "" then
    command ++ ("--image " ++ workspace.Source.Image)
  else if workspace.Source.LocalFolder ≠ "" then
    command ++ "--local-folder"
  else
    command

/-- The source flag as section 4.1 of the specification words it: repository
first, else image, else local folder, else nothing. -/
def specSourceFlag (source : WorkspaceSource) : String :=
  if source.GitRepository ≠ "" then "--repository " ++ source.GitRepository
  else if source.Image ≠ "" then "--image " ++ source.Image
  else if source.LocalFolder ≠ "" then "--local-folder"
  else ""

/-- The string `sub` occurs in `s`. The flag strings searched for are ASCII,
so occurrence among characters and among bytes agree. -/
def Contains (s sub : String) : Prop := sub.data <:+: s.data

instance (s sub : String) : Decidable (Contains s sub) :=
  inferInstanceAs (Decidable (sub.data <:+: s.data))

/-- The three source flags. -/
def sourceFlags : List String := ["--repository", "--image", "--local-folder"]

/-- The flag of the first populated source in the order repository, image,
local folder; `none` when no source is populated. -/
def expectedFlag (source : WorkspaceSource) : Option String :=
  if source.GitRepository ≠ "" then some "--repository"
  else if source.Image ≠ "" then some "--image"
  else if source.LocalFolder ≠ "" then some "--local-folder"
  else none

/-- Of the three flags the remote command contains the expected one and no other. -/
def ContainsExactlyExpectedFlag (w : World) (workspace : Workspace) : Prop :=
  ∀ f ∈ sourceFlags, Contains (remoteCommand w workspace) f ↔ expectedFlag workspace.Source = some f

instance (w : World) (workspace : Workspace) :
    Decidable (ContainsExactlyExpectedFlag w workspace) :=
  inferInstanceAs (Decidable (∀ f ∈ sourceFlags, _))

/-- The value the remote command writes after its flag: the repository or the
image; nothing follows `--local-folder`. -/
def flagValue (source : WorkspaceSource) : String :=
  if source.GitRepository ≠ "" then source.GitRepository
  else if source.Image ≠ "" then source.Image
  else ""

/-- No source flag occurs in `s`. -/
def FlagFree (s : String) : Prop := ∀ f ∈ sourceFlags, ¬ Contains s f

instance (s : String) : Decidable (FlagFree s) :=
  inferInstanceAs (Decidable (∀ f ∈ sourceFlags, _))

/-! ## The goroutine of `devPodUpServer` (lines 119-124) -/

/-- Where the goroutine stands. -/
inductive BgPc where
  /-- Inside `agent.StartTunnelServer` (line 120), which has not returned yet. -/
  | running
  /-- The call returned `r`; the store `err = r` of line 120 comes next. -/
  | assign (r : Error)
  /-- The test `err != nil` of line 121 comes next. -/
  | check
  /-- The call `log.Errorf("Start tunnel server: %v", err)` of line 122 comes next. -/
  | log
  /-- The goroutine has ended. -/
  | done
deriving DecidableEq, Repr

/-- The two threads between the `go` statement and the return of
`devPodUpServer`: the state, the variable `err` they share, and where the
goroutine stands. -/
structure Cfg where
  state : State
  err : Error
  bg : BgPc
deriving DecidableEq, Repr

/-- What `%v` prints for an `error`. -/
def errString : Error → String
  | some msg => msg
  | none => "<nil>"

/-- One step of the goroutine; each step reads or writes `err` at most once. -/
def stepBg (w : World) (reader writer : Stream) (localFolder : String) (c : Cfg) : Cfg :=
  match c.bg with
  | .running =>
    let r := w.StartTunnelServer reader writer false localFolder
    { c with state := c.state.emit (.tunnelReturned r), bg := .assign r }
  | .assign r => { c with err := r, bg := .check }
  | .check => if c.err ≠ none then { c with bg := .log } else { c with bg := .done }
  | .log => { c with state := c.state.emit (.errorf ("Start tunnel server: " ++ errString c.err)), bg := .done }
  | .done => c

/-- The goroutine runs `n` steps while the foreground flow stands still. -/
def bgSteps (w : World) (reader writer : Stream) (localFolder : String) : Nat → Cfg → Cfg
  | 0, c => c
  | n + 1, c => bgSteps w reader writer localFolder n (stepBg w reader writer localFolder c)

/-- An interleaving of the goroutine with the foreground flow: how many steps
the goroutine runs before each of the four actions the foreground flow has left
after the `go` statement. The goroutine has at most four steps, so every
interleaving up to the return of `devPodUpServer` is one of these. -/
structure Schedule where
  /-- Before `provider.Command` is called (line 127). -/
  beforeCall : Nat
  /-- Before the result of `provider.Command` is stored in `err` (line 127). -/
  beforeAssign : Nat
  /-- Before `err != nil` is evaluated (line 133). -/
  beforeCheck : Nat
  /-- Before `err` is read by `return err` (line 134). -/
  beforeReturn : Nat
deriving DecidableEq, Repr

/-- The schedule on which the goroutine does not run before `devPodUpServer` returns. -/
def Schedule.idle : Schedule := ⟨0, 0, 0, 0⟩

/-! ## `devPodUpServer`, `devPodUp`, `Run` -/

/-- The map literal of lines 106-109. -/
def templateVars (w : World) (workspace : Workspace) : List (String × String) :=
  [("BaseUrl", w.DefaultAgentDownloadURL), ("Command", remoteCommand w workspace)]

/-- The call `io.Pipe()`: the read end and the write end of a new pipe. -/
def ioPipe (s : State) : (Stream × Stream) × State :=
  ((.pipeReader s.nextPipe, .pipeWriter s.nextPipe),
    { s.emit (.pipe s.nextPipe) with nextPipe := s.nextPipe + 1 })

/-- Lines 126-137 of `devPodUpServer`, the goroutine `bg` running beside them:
the call of `provider.Command`, the store of its result in `err`, the test
`err != nil`, and `return err` or `return nil`. -/
def commandAndReturn (bg : Nat → Cfg → Cfg) (Command : Workspace → CommandOptions → Error)
    (workspace : Workspace) (options : CommandOptions) (sched : Schedule) (c : Cfg) :
    Error × State :=
  let c := bg sched.beforeCall c
  let c := { c with state := c.state.emit (.command workspace options) }
  let r := Command workspace options
  let c := bg sched.beforeAssign c
  let c := { c with err := r }
  let c := bg sched.beforeCheck c
  if c.err ≠ none then
    let c := bg sched.beforeReturn c
    (c.err, c.state)
  else
    (none, c.state)

/-- The function `devPodUpServer` (lines 94-138); `Command` is the method of the
server provider. -/
def devPodUpServer (w : World) (Command : Workspace → CommandOptions → Error)
    (workspace : Workspace) (sched : Schedule) (s : State) : Error × State :=
  let s := s.emit (.infof "Creating devcontainer...")
  -- install devpod into the ssh machine
  let s := s.emit (.fillTemplate w.InstallDevPodTemplate (templateVars w workspace))
  match w.FillTemplate w.InstallDevPodTemplate (templateVars w workspace) with
  | .error e => (some e, s)
  | .ok t =>
    -- create pipes
    let ((stdoutReader, stdoutWriter), s) := ioPipe s
    let ((stdinReader, stdinWriter), s) := ioPipe s
    -- create client
    let s := s.emit (.goTunnel stdoutReader stdinWriter false workspace.Source.LocalFolder)
    let bg := bgSteps w stdoutReader stdinWriter workspace.Source.LocalFolder
    -- create container etc.
    commandAndReturn bg Command workspace
      { Command := t, Stdin := stdinReader, Stdout := stdoutWriter, Stderr := .osStderr }
      sched { state := s, err := none, bg := .running }

/-- The function `devPodUp` (lines 85-92). -/
def devPodUp (w : World) (provider : Provider) (workspace : Workspace) (sched : Schedule)
    (s : State) : Error × State :=
  match provider with
  | .server Command => devPodUpServer w Command workspace sched s
  | .basic => (none, s)

/-- The arguments of the editor launch of line 77. -/
def editorArgs (workspace : Workspace) : List String :=
  ["--folder-uri",
    "vscode-remote://ssh-remote+" ++ workspace.ID ++ ".devpod/workspaces/" ++ workspace.ID]

/-- The method `UpCmd.Run` (lines 55-83). -/
def Run (w : World) (workspace : Workspace) (provider : Provider) (sched : Schedule)
    (s : State) : Error × State :=
  -- make sure instance is running before we continue
  let s := s.emit (.startWait workspace true)
  let err := w.startWait provider workspace true
  if err ≠ none then (err, s) else
  -- run devpod agent up
  let (err, s) := devPodUp w provider workspace sched s
  if err ≠ none then (err, s) else
  -- configure container ssh
  let s := s.emit (.configureSSH workspace.Context workspace.ID "vscode")
  let err := w.configureSSH workspace.Context workspace.ID "vscode"
  if err ≠ none then (err, s) else
  let s := s.emit (.infof ("Run 'ssh " ++ workspace.ID ++ ".devpod' to ssh into the devcontainer"))
  -- start VSCode
  let s := s.emit (.infof "Starting VSCode...")
  let s := s.emit (.exec "code" (editorArgs workspace))
  let err := w.execRun "code" (editorArgs workspace)
  if err ≠ none then (err, s) else
  (none, s)

/-! ## Views of a trace -/

/-- The events of the foreground flow, in order. -/
def fgTrace (t : List Event) : List Event := t.filter (fun e => !e.isBackground)

/-- The options of the `provider.Command` calls of a trace, in order. -/
def commandCalls (t : List Event) : List CommandOptions :=
  t.filterMap (fun e => match e with | .command _ o => some o | _ => none)

/-- The streams given to the tunnel loops a trace starts, in order. -/
def tunnelStarts (t : List Event) : List (Stream × Stream) :=
  t.filterMap (fun e => match e with | .goTunnel r wr _ _ => some (r, wr) | _ => none)

/-- The numbers of the pipes a trace creates, in order. -/
def pipesCreated (t : List Event) : List Nat :=
  t.filterMap (fun e => match e with | .pipe n => some n | _ => none)

/-- The streams a trace closes, in order. -/
def closed (t : List Event) : List Stream :=
  t.filterMap (fun e => match e with | .close x => some x | _ => none)

/-- The events `s'` has and `s`, an earlier state of the same flow, has not. -/
def eventsSince (s s' : State) : List Event := s'.trace.drop s.trace.length

/-- The events `devPodUpServer` performs itself when the script renders to `t`
and the first pipe it makes has the number `n`. -/
def serverEvents (w : World) (workspace : Workspace) (t : String) (n : Nat) : List Event :=
  [.infof "Creating devcontainer...",
   .fillTemplate w.InstallDevPodTemplate (templateVars w workspace),
   .pipe n,
   .pipe (n + 1),
   .goTunnel (.pipeReader n) (.pipeWriter (n + 1)) false workspace.Source.LocalFolder,
   .command workspace
     { Command := t, Stdin := .pipeReader (n + 1), Stdout := .pipeWriter n, Stderr := .osStderr }]

/-! ## Test worlds -/

/-- A world in which every collaborator succeeds; the renderer answers with
the remote command it was given. -/
def World.ok : World where
  RemoteDevPodHelperLocation := "/tmp/devpod"
  DefaultAgentDownloadURL := "https://example.com/agent"
  InstallDevPodTemplate := "install"
  FillTemplate := fun _ vars => .ok (String.join (vars.map Prod.snd))
  startWait := fun _ _ _ => none
  StartTunnelServer := fun _ _ _ _ => none
  configureSSH := fun _ _ _ => none
  execRun := fun _ _ => none

/-- Scenario A's workspace. -/
def wsGit : Workspace := ⟨"w1", "default", ⟨"https://example.com/r.git", "", ""⟩⟩

/-- Scenario C's workspace: only the local folder is set. -/
def wsLocal : Workspace := ⟨"w1", "default", ⟨"", "", "/home/me/project"⟩⟩

/-- A world like `World.ok` in which the tunnel loop returns an error. -/
def World.tunnelFails : World :=
  { World.ok with StartTunnelServer := fun _ _ _ _ => some "tunnel failed" }

/-- A world like `World.ok` in which rendering the install script fails. -/
def World.renderFails : World :=
  { World.ok with FillTemplate := fun _ _ => .error "template: missing key" }

/-- A `Command` method that succeeds. -/
def commandOk : Workspace → CommandOptions → Error := fun _ _ => none

/-- A `Command` method that fails. -/
def commandFails : Workspace → CommandOptions → Error := fun _ _ => some "command failed"

/-- The tunnel loop returns and the goroutine stores the result in `err` after
the foreground flow has stored the result of `Command` there and before it
tests `err != nil`. -/
def Schedule.storeBeforeCheck : Schedule := ⟨0, 0, 2, 0⟩

/-- The tunnel loop returns and the goroutine stores the result in `err` after
the foreground flow has tested `err != nil` and before it reads `err` to
return it. -/
def Schedule.storeBeforeReturn : Schedule := ⟨0, 0, 0, 2⟩

/-- A workspace whose repository URL has the text of another flag in it. -/
def wsFlagInURL : Workspace := ⟨"w1", "default", ⟨"https://example.com/my--image.git", "", ""⟩⟩

/-! ## The remote command -/

theorem prefix_of_sep {α : Type} (p a b : List α) (c : α) (hc : c ∉ p)
    (h : p <+: a ++ c :: b) : p <+: a := by
  rcases List.prefix_or_prefix_of_prefix h (List.prefix_append a (c :: b)) with h1 | h1
  · exact h1
  · obtain ⟨r, rfl⟩ := h1
    cases r with
    | nil => simp
    | cons x r =>
      exfalso
      have h2 : (x :: r) <+: c :: b := (List.prefix_append_right_inj a).1 h
      rw [List.cons_prefix_cons] at h2
      exact hc (by simp [h2.1])

/-- A pattern without the separator `c` that occurs in `a ++ c :: b` occurs in
`a` or in `b`. -/
theorem infix_of_sep {α : Type} (p a b : List α) (c : α) (hc : c ∉ p)
    (h : p <:+: a ++ c :: b) : p <:+: a ∨ p <:+: b := by
  induction a with
  | nil =>
    rw [List.nil_append, List.infix_cons_iff] at h
    rcases h with h | h
    · exact Or.inl (prefix_of_sep p [] b c hc (by simpa using h)).isInfix
    · exact Or.inr h
  | cons x a ih =>
    rw [List.cons_append, List.infix_cons_iff] at h
    rcases h with h | h
    · exact Or.inl (prefix_of_sep p (x :: a) b c hc (by simpa using h)).isInfix
    · rcases ih h with h1 | h1
      · exact Or.inl (List.infix_cons h1)
      · exact Or.inr h1

theorem remoteCommand_spec (w : World) (workspace : Workspace) :
    remoteCommand w workspace
      = "sudo " ++ w.RemoteDevPodHelperLocation ++ " agent up --id " ++ workspace.ID ++ " "
          ++ specSourceFlag workspace.Source := by
  unfold remoteCommand specSourceFlag
  by_cases h1 : workspace.Source.GitRepository = ""
  · by_cases h2 : workspace.Source.Image = ""
    · by_cases h3 : workspace.Source.LocalFolder = ""
      · simp [h1, h2, h3]
      · simp [h1, h2, h3]
    · simp [h1, h2]
  · simp [h1]

theorem command_data (H ID suffix : String) :
    ("sudo " ++ H ++ " agent up --id " ++ ID ++ " " ++ suffix).data
      = "sudo".data ++ ' ' :: (H.data ++ ' ' :: ("agent".data ++ ' ' :: ("up".data ++ ' ' ::
          ("--id".data ++ ' ' :: (ID.data ++ ' ' :: suffix.data))))) := by
  simp only [String.data_append]
  show ['s','u','d','o',' '] ++ H.data
      ++ [' ','a','g','e','n','t',' ','u','p',' ','-','-','i','d',' '] ++ ID.data ++ [' ']
      ++ suffix.data
    = ['s','u','d','o'] ++ ' ' :: (H.data ++ ' ' :: (['a','g','e','n','t'] ++ ' ' ::
        (['u','p'] ++ ' ' :: (['-','-','i','d'] ++ ' ' :: (ID.data ++ ' ' :: suffix.data)))))
  simp

/-- A pattern without a blank that occurs neither in the fixed words of the
command nor in the helper location nor in the ID occurs in the command exactly
when it occurs in what follows the ID. -/
theorem infix_command_iff (p : List Char) (H ID suffix : String) (hsp : ' ' ∉ p)
    (h1 : ¬ p <:+: "sudo".data) (h2 : ¬ p <:+: "agent".data) (h3 : ¬ p <:+: "up".data)
    (h4 : ¬ p <:+: "--id".data) (hH : ¬ p <:+: H.data) (hID : ¬ p <:+: ID.data) :
    p <:+: ("sudo " ++ H ++ " agent up --id " ++ ID ++ " " ++ suffix).data ↔ p <:+: suffix.data := by
  constructor
  · intro h
    rw [command_data] at h
    rcases infix_of_sep _ _ _ _ hsp h with h | h
    · exact absurd h h1
    rcases infix_of_sep _ _ _ _ hsp h with h | h
    · exact absurd h hH
    rcases infix_of_sep _ _ _ _ hsp h with h | h
    · exact absurd h h2
    rcases infix_of_sep _ _ _ _ hsp h with h | h
    · exact absurd h h3
    rcases infix_of_sep _ _ _ _ hsp h with h | h
    · exact absurd h h4
    rcases infix_of_sep _ _ _ _ hsp h with h | h
    · exact absurd h hID
    exact h
  · intro h
    rw [String.data_append]
    exact h.trans (List.suffix_append _ _).isInfix

/-- The three flags, spelled out. -/
theorem mem_sourceFlags (f : String) :
    f ∈ sourceFlags ↔ f = "--repository" ∨ f = "--image" ∨ f = "--local-folder" := by
  simp [sourceFlags]

/-- In a command whose helper location and ID are free of flags, a flag occurs
exactly when it occurs after the ID. -/
theorem contains_remoteCommand_iff (w : World) (workspace : Workspace) (f : String)
    (hf : f ∈ sourceFlags) (hH : FlagFree w.RemoteDevPodHelperLocation)
    (hID : FlagFree workspace.ID) :
    Contains (remoteCommand w workspace) f ↔ Contains (specSourceFlag workspace.Source) f := by
  have hH1 := hH f hf
  have hID1 := hID f hf
  rw [remoteCommand_spec]
  unfold Contains at *
  rcases (mem_sourceFlags f).1 hf with rfl | rfl | rfl
  · exact infix_command_iff _ _ _ _ (by decide) (by decide) (by decide) (by decide) (by decide)
      hH1 hID1
  · exact infix_command_iff _ _ _ _ (by decide) (by decide) (by decide) (by decide) (by decide)
      hH1 hID1
  · exact infix_command_iff _ _ _ _ (by decide) (by decide) (by decide) (by decide) (by decide)
      hH1 hID1

/-- A flag occurs in `flag ++ " " ++ value` exactly when it is `flag` itself,
for a value free of flags. -/
theorem infix_flag_value (p flag : List Char) (value : String) (hsp : ' ' ∉ p)
    (hv : ¬ p <:+: value.data) : p <:+: flag ++ ' ' :: value.data ↔ p <:+: flag := by
  constructor
  · intro h
    rcases infix_of_sep _ _ _ _ hsp h with h | h
    · exact h
    · exact absurd h hv
  · intro h
    exact h.trans (List.prefix_append _ _).isInfix

theorem contains_specSourceFlag_iff (source : WorkspaceSource) (f : String)
    (hf : f ∈ sourceFlags) (hv : FlagFree (flagValue source)) :
    Contains (specSourceFlag source) f ↔ expectedFlag source = some f := by
  have hv1 := hv f hf
  unfold specSourceFlag expectedFlag
  unfold flagValue at hv1
  unfold Contains at *
  have hrepo : ("--repository " ++ source.GitRepository).data
      = "--repository".data ++ ' ' :: source.GitRepository.data := by
    rw [String.data_append]; rfl
  have himage : ("--image " ++ source.Image).data = "--image".data ++ ' ' :: source.Image.data := by
    rw [String.data_append]; rfl
  by_cases h1 : source.GitRepository = ""
  · by_cases h2 : source.Image = ""
    · by_cases h3 : source.LocalFolder = ""
      · simp only [h1, h2, h3, ne_eq, not_true_eq_false, if_false]
        rcases (mem_sourceFlags f).1 hf with rfl | rfl | rfl <;> decide
      · simp only [h1, h2, h3, ne_eq, not_true_eq_false, not_false_eq_true, if_false, if_true]
        rcases (mem_sourceFlags f).1 hf with rfl | rfl | rfl <;> decide
    · simp only [h1, h2, ne_eq, not_true_eq_false, not_false_eq_true, if_false, if_true] at hv1 ⊢
      rw [himage]
      rcases (mem_sourceFlags f).1 hf with rfl | rfl | rfl
      · rw [infix_flag_value _ _ _ (by decide) hv1]; decide
      · rw [infix_flag_value _ _ _ (by decide) hv1]; decide
      · rw [infix_flag_value _ _ _ (by decide) hv1]; decide
  · simp only [h1, ne_eq, not_false_eq_true, if_true] at hv1 ⊢
    rw [hrepo]
    rcases (mem_sourceFlags f).1 hf with rfl | rfl | rfl
    · rw [infix_flag_value _ _ _ (by decide) hv1]; decide
    · rw [infix_flag_value _ _ _ (by decide) hv1]; decide
    · rw [infix_flag_value _ _ _ (by decide) hv1]; decide

/-! ## The goroutine only adds its own events -/

/-- From `c` to `c'` the trace grew by events of the goroutine only and no pipe
was made. -/
def BgExt (c c' : Cfg) : Prop :=
  c'.state.nextPipe = c.state.nextPipe ∧
    ∃ l, c'.state.trace = c.state.trace ++ l ∧ ∀ e ∈ l, e.isBackground = true

theorem BgExt.refl (c : Cfg) : BgExt c c := ⟨rfl, [], by simp, by simp⟩

theorem BgExt.trans {a b c : Cfg} (h1 : BgExt a b) (h2 : BgExt b c) : BgExt a c := by
  obtain ⟨n1, l1, t1, b1⟩ := h1
  obtain ⟨n2, l2, t2, b2⟩ := h2
  refine ⟨n2.trans n1, l1 ++ l2, by rw [t2, t1, List.append_assoc], ?_⟩
  intro e he
  rcases List.mem_append.1 he with h | h
  · exact b1 e h
  · exact b2 e h

theorem stepBg_ext (w : World) (rd wr : Stream) (lf : String) (c : Cfg) :
    BgExt c (stepBg w rd wr lf c) := by
  unfold stepBg
  split
  · exact ⟨rfl, [_], rfl, by simp [Event.isBackground]⟩
  · exact ⟨rfl, [], by simp, by simp⟩
  · split
    · exact ⟨rfl, [], by simp, by simp⟩
    · exact ⟨rfl, [], by simp, by simp⟩
  · exact ⟨rfl, [_], rfl, by simp [Event.isBackground]⟩
  · exact BgExt.refl c

theorem bgSteps_ext (w : World) (rd wr : Stream) (lf : String) (n : Nat) (c : Cfg) :
    BgExt c (bgSteps w rd wr lf n c) := by
  induction n generalizing c with
  | zero => exact BgExt.refl c
  | succ n ih => exact (stepBg_ext w rd wr lf c).trans (ih _)

/-! ## The trace of `devPodUpServer` -/

/-- The trace of lines 126-137 is the trace before them, events of the
goroutine, the `Command` call, and events of the goroutine again. -/
theorem commandAndReturn_trace (w : World) (rd wr : Stream) (lf : String)
    (Command : Workspace → CommandOptions → Error) (workspace : Workspace)
    (options : CommandOptions) (sched : Schedule) (c : Cfg) :
    ∃ l0 l1, (∀ e ∈ l0, e.isBackground = true) ∧ (∀ e ∈ l1, e.isBackground = true) ∧
      (commandAndReturn (bgSteps w rd wr lf) Command workspace options sched c).2.trace
        = c.state.trace ++ l0 ++ [.command workspace options] ++ l1 ∧
      (commandAndReturn (bgSteps w rd wr lf) Command workspace options sched c).2.nextPipe
        = c.state.nextPipe := by
  unfold commandAndReturn
  simp only
  generalize hc1 : bgSteps w rd wr lf sched.beforeCall c = c1
  have e1 : BgExt c c1 := hc1 ▸ bgSteps_ext w rd wr lf _ c
  generalize hc2 : ({ c1 with state := c1.state.emit (.command workspace options) } : Cfg) = c2
  generalize hc3 : bgSteps w rd wr lf sched.beforeAssign c2 = c3
  have e3 : BgExt c2 c3 := hc3 ▸ bgSteps_ext w rd wr lf _ c2
  generalize hc4 : ({ c3 with err := Command workspace options } : Cfg) = c4
  generalize hc5 : bgSteps w rd wr lf sched.beforeCheck c4 = c5
  have e5 : BgExt c4 c5 := hc5 ▸ bgSteps_ext w rd wr lf _ c4
  generalize hc6 : bgSteps w rd wr lf sched.beforeReturn c5 = c6
  have e6 : BgExt c5 c6 := hc6 ▸ bgSteps_ext w rd wr lf _ c5
  have e4 : BgExt c3 c4 := by subst hc4; exact ⟨rfl, [], by simp, by simp⟩
  have e35 : BgExt c2 c5 := e3.trans (e4.trans e5)
  have e36 : BgExt c2 c6 := e35.trans e6
  obtain ⟨n1, l0, t1, b0⟩ := e1
  have t2 : c2.state.trace = c.state.trace ++ l0 ++ [.command workspace options] := by
    subst hc2; simp [State.emit, t1]
  have n2 : c2.state.nextPipe = c.state.nextPipe := by
    subst hc2; simpa [State.emit] using n1
  split
  · obtain ⟨n6, l1, t6, b1⟩ := e36
    exact ⟨l0, l1, b0, b1, by simp only [t6, t2], by simp only [n6, n2]⟩
  · obtain ⟨n5, l1, t5, b1⟩ := e35
    exact ⟨l0, l1, b0, b1, by simp only [t5, t2], by simp only [n5, n2]⟩

theorem eventsSince_append (s s' : State) (l : List Event) (h : s'.trace = s.trace ++ l) :
    eventsSince s s' = l := by
  simp [eventsSince, h]

theorem fgTrace_background (l : List Event) (h : ∀ e ∈ l, e.isBackground = true) :
    fgTrace l = [] := by
  simp only [fgTrace, List.filter_eq_nil_iff]
  intro e he
  simp [h e he]

theorem fgTrace_append (a b : List Event) : fgTrace (a ++ b) = fgTrace a ++ fgTrace b := by
  simp [fgTrace]

theorem commandCalls_fgTrace (t : List Event) : commandCalls (fgTrace t) = commandCalls t := by
  induction t with
  | nil => rfl
  | cons e t ih =>
    cases e <;> simp_all [fgTrace, commandCalls, Event.isBackground, List.filter_cons]

theorem tunnelStarts_fgTrace (t : List Event) : tunnelStarts (fgTrace t) = tunnelStarts t := by
  induction t with
  | nil => rfl
  | cons e t ih =>
    cases e <;> simp_all [fgTrace, tunnelStarts, Event.isBackground, List.filter_cons]

theorem pipesCreated_fgTrace (t : List Event) : pipesCreated (fgTrace t) = pipesCreated t := by
  induction t with
  | nil => rfl
  | cons e t ih =>
    cases e <;> simp_all [fgTrace, pipesCreated, Event.isBackground, List.filter_cons]

theorem closed_fgTrace (t : List Event) : closed (fgTrace t) = closed t := by
  induction t with
  | nil => rfl
  | cons e t ih =>
    cases e <;> simp_all [fgTrace, closed, Event.isBackground, List.filter_cons]

/-- When rendering fails `devPodUpServer` returns the renderer's error after
the log line and the rendering call. -/
theorem devPodUpServer_error (w : World) (Command : Workspace → CommandOptions → Error)
    (workspace : Workspace) (sched : Schedule) (s : State) (e : String)
    (h : w.FillTemplate w.InstallDevPodTemplate (templateVars w workspace) = .error e) :
    devPodUpServer w Command workspace sched s
      = (some e, (s.emit (.infof "Creating devcontainer...")).emit
          (.fillTemplate w.InstallDevPodTemplate (templateVars w workspace))) := by
  simp only [devPodUpServer, h]

/-- When the script renders, the trace of `devPodUpServer` is the trace before
it, its five events up to the `go` statement, events of the goroutine, the
`Command` call, and events of the goroutine again. -/
theorem devPodUpServer_ok_trace (w : World) (Command : Workspace → CommandOptions → Error)
    (workspace : Workspace) (sched : Schedule) (s : State) (t : String)
    (h : w.FillTemplate w.InstallDevPodTemplate (templateVars w workspace) = .ok t) :
    ∃ l0 l1, (∀ e ∈ l0, e.isBackground = true) ∧ (∀ e ∈ l1, e.isBackground = true) ∧
      (devPodUpServer w Command workspace sched s).2.trace
        = s.trace ++ ((serverEvents w workspace t s.nextPipe).take 5 ++ l0
            ++ (serverEvents w workspace t s.nextPipe).drop 5 ++ l1) ∧
      (devPodUpServer w Command workspace sched s).2.nextPipe = s.nextPipe + 2 := by
  simp only [devPodUpServer, h, ioPipe]
  obtain ⟨l0, l1, b0, b1, ht, hn⟩ := commandAndReturn_trace w (.pipeReader s.nextPipe)
    (.pipeWriter (s.nextPipe + 1)) workspace.Source.LocalFolder Command workspace
    { Command := t, Stdin := .pipeReader (s.nextPipe + 1), Stdout := .pipeWriter s.nextPipe,
      Stderr := .osStderr } sched
    { state := ⟨s.trace ++ (serverEvents w workspace t s.nextPipe).take 5, s.nextPipe + 2⟩,
      err := none, bg := .running }
  refine ⟨l0, l1, b0, b1, ?_, ?_⟩
  · simpa [State.emit, serverEvents] using ht
  · simpa [State.emit, serverEvents] using hn

/-- The events of the foreground flow in `devPodUpServer`, script rendered. -/
theorem devPodUpServer_ok_fgTrace (w : World) (Command : Workspace → CommandOptions → Error)
    (workspace : Workspace) (sched : Schedule) (s : State) (t : String)
    (h : w.FillTemplate w.InstallDevPodTemplate (templateVars w workspace) = .ok t) :
    fgTrace (eventsSince s (devPodUpServer w Command workspace sched s).2)
      = serverEvents w workspace t s.nextPipe := by
  obtain ⟨l0, l1, b0, b1, ht, -⟩ := devPodUpServer_ok_trace w Command workspace sched s t h
  rw [eventsSince_append _ _ _ ht]
  simp only [fgTrace_append, fgTrace_background l0 b0, fgTrace_background l1 b1]
  simp [serverEvents, fgTrace, Event.isBackground]

/-! ## The value `devPodUpServer` returns -/

/-- The variable `err` holds `nil`, the result `a` of `Command` or the result
`b` of the tunnel loop, and the goroutine is about to store nothing but `b`. -/
def ErrInv (a b : Error) (c : Cfg) : Prop :=
  (c.err = none ∨ c.err = a ∨ c.err = b) ∧ ∀ r, c.bg = .assign r → r = b

theorem stepBg_inv (w : World) (rd wr : Stream) (lf : String) (a : Error) (c : Cfg)
    (h : ErrInv a (w.StartTunnelServer rd wr false lf) c) :
    ErrInv a (w.StartTunnelServer rd wr false lf) (stepBg w rd wr lf c) := by
  obtain ⟨h1, h2⟩ := h
  unfold stepBg
  split
  · exact ⟨h1, fun r hr => by simp only [BgPc.assign.injEq] at hr; exact hr.symm⟩
  · next r hr => exact ⟨Or.inr (Or.inr (h2 r hr)), fun r hr => by simp at hr⟩
  · split
    · exact ⟨h1, fun r hr => by simp at hr⟩
    · exact ⟨h1, fun r hr => by simp at hr⟩
  · exact ⟨h1, fun r hr => by simp at hr⟩
  · exact ⟨h1, h2⟩

theorem bgSteps_inv (w : World) (rd wr : Stream) (lf : String) (a : Error) (n : Nat) (c : Cfg)
    (h : ErrInv a (w.StartTunnelServer rd wr false lf) c) :
    ErrInv a (w.StartTunnelServer rd wr false lf) (bgSteps w rd wr lf n c) := by
  induction n generalizing c with
  | zero => exact h
  | succ n ih => exact ih _ (stepBg_inv w rd wr lf a c h)

/-- Lines 126-137 return `nil`, what `Command` returned, or what the tunnel
loop returned. -/
theorem commandAndReturn_result (w : World) (rd wr : Stream) (lf : String)
    (Command : Workspace → CommandOptions → Error) (workspace : Workspace)
    (options : CommandOptions) (sched : Schedule) (st : State) :
    (commandAndReturn (bgSteps w rd wr lf) Command workspace options sched
        { state := st, err := none, bg := .running }).1 = none ∨
    (commandAndReturn (bgSteps w rd wr lf) Command workspace options sched
        { state := st, err := none, bg := .running }).1 = Command workspace options ∨
    (commandAndReturn (bgSteps w rd wr lf) Command workspace options sched
        { state := st, err := none, bg := .running }).1 = w.StartTunnelServer rd wr false lf := by
  unfold commandAndReturn
  simp only
  have i0 : ErrInv (Command workspace options) (w.StartTunnelServer rd wr false lf)
      { state := st, err := none, bg := .running } :=
    ⟨Or.inl rfl, fun r hr => by simp at hr⟩
  generalize ({ state := st, err := none, bg := BgPc.running } : Cfg) = c at i0 ⊢
  have i1 := bgSteps_inv w rd wr lf _ sched.beforeCall c i0
  generalize bgSteps w rd wr lf sched.beforeCall c = c1 at i1 ⊢
  have i2 : ErrInv (Command workspace options) (w.StartTunnelServer rd wr false lf)
      { c1 with state := c1.state.emit (.command workspace options) } := i1
  generalize ({ c1 with state := c1.state.emit (.command workspace options) } : Cfg) = c2 at i2 ⊢
  have i3 := bgSteps_inv w rd wr lf _ sched.beforeAssign c2 i2
  generalize bgSteps w rd wr lf sched.beforeAssign c2 = c3 at i3 ⊢
  have i4 : ErrInv (Command workspace options) (w.StartTunnelServer rd wr false lf)
      { c3 with err := Command workspace options } := ⟨Or.inr (Or.inl rfl), i3.2⟩
  generalize ({ c3 with err := Command workspace options } : Cfg) = c4 at i4 ⊢
  have i5 := bgSteps_inv w rd wr lf _ sched.beforeCheck c4 i4
  generalize bgSteps w rd wr lf sched.beforeCheck c4 = c5 at i5 ⊢
  have i6 := bgSteps_inv w rd wr lf _ sched.beforeReturn c5 i5
  split
  · exact i6.1
  · exact Or.inl rfl

/-- When the goroutine does not run between the store of the result of
`Command` and the return, lines 126-137 return what `Command` returned. -/
theorem commandAndReturn_undisturbed (bg : Nat → Cfg → Cfg) (hbg : ∀ c, bg 0 c = c)
    (Command : Workspace → CommandOptions → Error) (workspace : Workspace)
    (options : CommandOptions) (sched : Schedule) (c : Cfg)
    (h1 : sched.beforeCheck = 0) (h2 : sched.beforeReturn = 0) :
    (commandAndReturn bg Command workspace options sched c).1 = Command workspace options := by
  unfold commandAndReturn
  simp only [h1, h2, hbg]
  split
  · rfl
  · next h => exact (not_not.1 h).symm

/-- When the script renders `devPodUpServer` returns `nil`, what `Command`
returned, or what the tunnel loop returned. -/
theorem devPodUpServer_result (w : World) (Command : Workspace → CommandOptions → Error)
    (workspace : Workspace) (sched : Schedule) (s : State) (t : String)
    (h : w.FillTemplate w.InstallDevPodTemplate (templateVars w workspace) = .ok t) :
    (devPodUpServer w Command workspace sched s).1 = none ∨
    (devPodUpServer w Command workspace sched s).1
      = Command workspace
          { Command := t, Stdin := .pipeReader (s.nextPipe + 1),
            Stdout := .pipeWriter s.nextPipe, Stderr := .osStderr } ∨
    (devPodUpServer w Command workspace sched s).1
      = w.StartTunnelServer (.pipeReader s.nextPipe) (.pipeWriter (s.nextPipe + 1)) false
          workspace.Source.LocalFolder := by
  simp only [devPodUpServer, h, ioPipe]
  exact commandAndReturn_result w _ _ _ Command workspace _ sched _

/-- When the script renders and the goroutine does not run between the store
of the result of `Command` and the return, `devPodUpServer` returns what
`Command` returned. -/
theorem devPodUpServer_undisturbed (w : World) (Command : Workspace → CommandOptions → Error)
    (workspace : Workspace) (sched : Schedule) (s : State) (t : String)
    (h : w.FillTemplate w.InstallDevPodTemplate (templateVars w workspace) = .ok t)
    (h1 : sched.beforeCheck = 0) (h2 : sched.beforeReturn = 0) :
    (devPodUpServer w Command workspace sched s).1
      = Command workspace
          { Command := t, Stdin := .pipeReader (s.nextPipe + 1),
            Stdout := .pipeWriter s.nextPipe, Stderr := .osStderr } := by
  simp only [devPodUpServer, h, ioPipe]
  exact commandAndReturn_undisturbed _ (fun _ => rfl) Command workspace _ sched _ h1 h2

/-! ## `Run` -/

/-- The four events of `Run` after a `devPodUp` that returned `nil`, when the
SSH configuration succeeds. -/
def handOffEvents (workspace : Workspace) : List Event :=
  [.configureSSH workspace.Context workspace.ID "vscode",
   .infof ("Run 'ssh " ++ workspace.ID ++ ".devpod' to ssh into the devcontainer"),
   .infof "Starting VSCode...",
   .exec "code" (editorArgs workspace)]

/-- The state `Run` ends in when `startWait` and `devPodUp` return `nil`, and
the value it returns. -/
theorem Run_after_devPodUp (w : World) (workspace : Workspace) (provider : Provider)
    (sched : Schedule) (s : State) (hwait : w.startWait provider workspace true = none)
    (hup : (devPodUp w provider workspace sched (s.emit (.startWait workspace true))).1 = none) :
    (Run w workspace provider sched s).2.trace
      = (devPodUp w provider workspace sched (s.emit (.startWait workspace true))).2.trace
          ++ (if w.configureSSH workspace.Context workspace.ID "vscode" = none
              then handOffEvents workspace
              else [.configureSSH workspace.Context workspace.ID "vscode"]) ∧
    (Run w workspace provider sched s).1
      = (if w.configureSSH workspace.Context workspace.ID "vscode" = none
          then w.execRun "code" (editorArgs workspace)
          else w.configureSSH workspace.Context workspace.ID "vscode") := by
  unfold Run
  simp only [hwait, ne_eq, not_true_eq_false, if_false]
  generalize devPodUp w provider workspace sched (s.emit (.startWait workspace true)) = r at hup ⊢
  obtain ⟨e, s1⟩ := r
  simp only at hup
  subst hup
  by_cases hssh : w.configureSSH workspace.Context workspace.ID "vscode" = none
  · by_cases hexec : w.execRun "code" (editorArgs workspace) = none
    · simp [hssh, hexec, State.emit, handOffEvents]
    · simp [hssh, hexec, State.emit, handOffEvents]
  · simp [hssh, State.emit]

/-! ## The remote command: C1, C2 -/

/-- C1: for every workspace the remote command built by `devPodUpServer` is
`"sudo <RemoteDevPodHelperLocation> agent up --id <ID> "` followed by the one
suffix the precedence repository, image, local folder selects (nothing when no
source field is set), and this is the `Command` entry `devPodUpServer` hands
to the renderer, whatever the three source fields hold. -/
theorem C1_remote_command (w : World) (Command : Workspace → CommandOptions → Error)
    (workspace : Workspace) (sched : Schedule) (s : State) :
    remoteCommand w workspace
      = "sudo " ++ w.RemoteDevPodHelperLocation ++ " agent up --id " ++ workspace.ID ++ " "
          ++ specSourceFlag workspace.Source ∧
    Event.fillTemplate w.InstallDevPodTemplate
        [("BaseUrl", w.DefaultAgentDownloadURL),
         ("Command", "sudo " ++ w.RemoteDevPodHelperLocation ++ " agent up --id "
            ++ workspace.ID ++ " " ++ specSourceFlag workspace.Source)]
      ∈ eventsSince s (devPodUpServer w Command workspace sched s).2 := by
  refine ⟨remoteCommand_spec w workspace, ?_⟩
  rw [← remoteCommand_spec]
  cases h : w.FillTemplate w.InstallDevPodTemplate (templateVars w workspace) with
  | error e =>
    rw [devPodUpServer_error w Command workspace sched s e h]
    simp [eventsSince, State.emit, templateVars]
  | ok t =>
    obtain ⟨l0, l1, -, -, ht, -⟩ := devPodUpServer_ok_trace w Command workspace sched s t h
    rw [eventsSince_append _ _ _ ht]
    simp [serverEvents, templateVars]

/-- C2, as stated, fails: for the repository
`https://example.com/my--image.git` the remote command contains `--image`
besides `--repository`, the flag of the first populated source. -/
theorem C2_counterexample : ¬ ContainsExactlyExpectedFlag World.ok wsFlagInURL := by
  intro h
  have h1 : Contains (remoteCommand World.ok wsFlagInURL) "--image" :=
    ⟨"sudo /tmp/devpod agent up --id w1 --repository https://example.com/my".data, ".git".data,
      rfl⟩
  have h2 := (h "--image" (by decide)).1 h1
  revert h2
  decide

/-- C2, amended: when neither the helper location nor the workspace ID nor the
value written after the flag contains one of the three flag strings, the
remote command contains, of the three flag strings, exactly the one of the
first populated source in the order repository, image, local folder, and none
of them when no source field is populated. -/
theorem C2_flag_of_first_populated_source (w : World) (workspace : Workspace)
    (hH : FlagFree w.RemoteDevPodHelperLocation) (hID : FlagFree workspace.ID)
    (hv : FlagFree (flagValue workspace.Source)) :
    ContainsExactlyExpectedFlag w workspace := by
  intro f hf
  rw [contains_remoteCommand_iff w workspace f hf hH hID]
  exact contains_specSourceFlag_iff workspace.Source f hf hv

/-- C2, amended, at scenario A's workspace. -/
theorem C2_flag_of_first_populated_source_witness :
    ContainsExactlyExpectedFlag World.ok wsGit :=
  C2_flag_of_first_populated_source World.ok wsGit (by decide) (by decide) (by decide)

/-! ## Providers without the server capability: C3 -/

/-- C3: for a provider that is not a server provider `devPodUp` returns `nil`
and leaves the state as it was, so it performs no event at all: no `Command`
call, no pipe, no tunnel loop. After a successful readiness wait the next
event of `Run` is therefore the SSH configuration, followed, when it succeeds,
by the two log lines and the editor launch. -/
theorem C3_basic_provider_skips_bootstrap (w : World) (workspace : Workspace)
    (sched : Schedule) (s : State) (hwait : w.startWait .basic workspace true = none) :
    (∀ s0 : State, devPodUp w .basic workspace sched s0 = (none, s0)) ∧
    eventsSince s (Run w workspace .basic sched s).2
      = .startWait workspace true ::
          (if w.configureSSH workspace.Context workspace.ID "vscode" = none
            then handOffEvents workspace
            else [.configureSSH workspace.Context workspace.ID "vscode"]) ∧
    commandCalls (eventsSince s (Run w workspace .basic sched s).2) = [] ∧
    pipesCreated (eventsSince s (Run w workspace .basic sched s).2) = [] ∧
    tunnelStarts (eventsSince s (Run w workspace .basic sched s).2) = [] := by
  have hup : ∀ s0 : State, devPodUp w .basic workspace sched s0 = (none, s0) := fun _ => rfl
  obtain ⟨ht, -⟩ := Run_after_devPodUp w workspace .basic sched s hwait (by rw [hup])
  rw [hup] at ht
  have he : eventsSince s (Run w workspace .basic sched s).2
      = .startWait workspace true ::
          (if w.configureSSH workspace.Context workspace.ID "vscode" = none
            then handOffEvents workspace
            else [.configureSSH workspace.Context workspace.ID "vscode"]) := by
    apply eventsSince_append
    rw [ht]
    simp [State.emit]
  refine ⟨hup, he, ?_, ?_, ?_⟩ <;> rw [he] <;>
    by_cases hssh : w.configureSSH workspace.Context workspace.ID "vscode" = none <;>
    simp [hssh, handOffEvents, commandCalls, pipesCreated, tunnelStarts]

/-- C3 at scenario C: only the local folder set, provider without the server
capability. -/
theorem C3_basic_provider_skips_bootstrap_witness :
    World.ok.startWait .basic wsLocal true = none ∧
    eventsSince State.init (Run World.ok wsLocal .basic Schedule.idle State.init).2
      = [.startWait wsLocal true,
         .configureSSH "default" "w1" "vscode",
         .infof "Run 'ssh w1.devpod' to ssh into the devcontainer",
         .infof "Starting VSCode...",
         .exec "code" ["--folder-uri", "vscode-remote://ssh-remote+w1.devpod/workspaces/w1"]] :=
  ⟨rfl, (C3_basic_provider_skips_bootstrap World.ok wsLocal Schedule.idle State.init rfl).2.1⟩

/-! ## Rendering fails: C10 -/

/-- C10: when rendering the install script fails with `e`, `devPodUpServer`
(and `devPodUp` on a server provider) returns `e`, and its only events are
its log line and the rendering call: no pipe, no tunnel loop, no `Command`
call. -/
theorem C10_render_error (w : World) (Command : Workspace → CommandOptions → Error)
    (workspace : Workspace) (sched : Schedule) (s : State) (e : String)
    (h : w.FillTemplate w.InstallDevPodTemplate
      [("BaseUrl", w.DefaultAgentDownloadURL), ("Command", remoteCommand w workspace)]
        = .error e) :
    (devPodUpServer w Command workspace sched s).1 = some e ∧
    (devPodUp w (.server Command) workspace sched s).1 = some e ∧
    eventsSince s (devPodUpServer w Command workspace sched s).2
      = [.infof "Creating devcontainer...",
         .fillTemplate w.InstallDevPodTemplate
           [("BaseUrl", w.DefaultAgentDownloadURL), ("Command", remoteCommand w workspace)]] ∧
    pipesCreated (eventsSince s (devPodUpServer w Command workspace sched s).2) = [] ∧
    tunnelStarts (eventsSince s (devPodUpServer w Command workspace sched s).2) = [] ∧
    commandCalls (eventsSince s (devPodUpServer w Command workspace sched s).2) = [] := by
  have hr := devPodUpServer_error w Command workspace sched s e h
  have he : eventsSince s (devPodUpServer w Command workspace sched s).2
      = [.infof "Creating devcontainer...",
         .fillTemplate w.InstallDevPodTemplate
           [("BaseUrl", w.DefaultAgentDownloadURL), ("Command", remoteCommand w workspace)]] := by
    apply eventsSince_append
    rw [hr]
    simp [State.emit, templateVars]
  refine ⟨by rw [hr], by simp only [devPodUp]; rw [hr], he, ?_, ?_, ?_⟩ <;> rw [he] <;>
    simp [pipesCreated, tunnelStarts, commandCalls]

/-- C10 on a world whose renderer fails. -/
theorem C10_render_error_witness :
    (devPodUpServer World.renderFails commandOk wsGit Schedule.idle State.init).1
      = some "template: missing key" :=
  (C10_render_error World.renderFails commandOk wsGit Schedule.idle State.init
    "template: missing key" rfl).1

/-! ## The wiring of the pipes: C7, C8 -/

/-- C7: when the script renders to `t` (the template filled with `BaseUrl`,
the default agent download URL, and `Command`, the remote command), then on
every schedule `devPodUpServer` makes two pipes, `n` (remote-out) and `n + 1`
(local-in), calls `Command` exactly once, with the command `t`, the read end
of the local-in pipe as stdin, the write end of the remote-out pipe as stdout
and `os.Stderr` as stderr, and starts one tunnel loop, on the read end of the
remote-out pipe and the write end of the local-in pipe. The four ends are
pairwise distinct, so each is held by exactly one of the two. -/
theorem C7_pipe_wiring (w : World) (Command : Workspace → CommandOptions → Error)
    (workspace : Workspace) (sched : Schedule) (s : State) (t : String)
    (h : w.FillTemplate w.InstallDevPodTemplate
      [("BaseUrl", w.DefaultAgentDownloadURL), ("Command", remoteCommand w workspace)]
        = .ok t) :
    pipesCreated (eventsSince s (devPodUpServer w Command workspace sched s).2)
      = [s.nextPipe, s.nextPipe + 1] ∧
    commandCalls (eventsSince s (devPodUpServer w Command workspace sched s).2)
      = [{ Command := t, Stdin := .pipeReader (s.nextPipe + 1),
           Stdout := .pipeWriter s.nextPipe, Stderr := .osStderr }] ∧
    tunnelStarts (eventsSince s (devPodUpServer w Command workspace sched s).2)
      = [(.pipeReader s.nextPipe, .pipeWriter (s.nextPipe + 1))] ∧
    [Stream.pipeReader s.nextPipe, .pipeWriter (s.nextPipe + 1),
      .pipeReader (s.nextPipe + 1), .pipeWriter s.nextPipe].Nodup := by
  have hf := devPodUpServer_ok_fgTrace w Command workspace sched s t h
  refine ⟨?_, ?_, ?_, by simp⟩
  · rw [← pipesCreated_fgTrace, hf]; rfl
  · rw [← commandCalls_fgTrace, hf]; rfl
  · rw [← tunnelStarts_fgTrace, hf]; rfl

/-- C7 at scenario A, the tunnel loop returning between the store of the
result of `Command` and the test of `err`. -/
theorem C7_pipe_wiring_witness :
    commandCalls
        (eventsSince State.init
          (devPodUpServer World.ok commandOk wsGit Schedule.storeBeforeCheck State.init).2)
      = [{ Command := "https://example.com/agentsudo /tmp/devpod agent up --id w1 --repository https://example.com/r.git",
           Stdin := .pipeReader 1, Stdout := .pipeWriter 0, Stderr := .osStderr }] :=
  (C7_pipe_wiring World.ok commandOk wsGit Schedule.storeBeforeCheck State.init _ rfl).2.1

/-- C8, as stated, fails: on the path where `Command` succeeds, not every end
of the two pipes has been closed when `devPodUpServer` returns. -/
theorem C8_counterexample :
    ¬ ∀ x ∈ [Stream.pipeReader 0, .pipeWriter 0, .pipeReader 1, .pipeWriter 1],
        x ∈ closed (devPodUpServer World.ok commandOk wsGit Schedule.idle State.init).2.trace := by
  decide

/-- C8, amended: on every exit path of `devPodUpServer` that created the
pipes, whatever `Command` returned and on every schedule, `devPodUpServer`
has closed no end of either pipe when it returns. -/
theorem C8_no_pipe_end_closed (w : World) (Command : Workspace → CommandOptions → Error)
    (workspace : Workspace) (sched : Schedule) (s : State) (t : String)
    (h : w.FillTemplate w.InstallDevPodTemplate
      [("BaseUrl", w.DefaultAgentDownloadURL), ("Command", remoteCommand w workspace)]
        = .ok t) :
    pipesCreated (eventsSince s (devPodUpServer w Command workspace sched s).2)
      = [s.nextPipe, s.nextPipe + 1] ∧
    closed (eventsSince s (devPodUpServer w Command workspace sched s).2) = [] := by
  have hf := devPodUpServer_ok_fgTrace w Command workspace sched s t h
  constructor
  · rw [← pipesCreated_fgTrace, hf]; rfl
  · rw [← closed_fgTrace, hf]; rfl

/-- C8, amended, on the path where `Command` fails. -/
theorem C8_no_pipe_end_closed_witness :
    closed
        (eventsSince State.init
          (devPodUpServer World.ok commandFails wsGit Schedule.idle State.init).2) = [] :=
  (C8_no_pipe_end_closed World.ok commandFails wsGit Schedule.idle State.init _ rfl).2

/-! ## The path on which nothing fails -/

/-- When the readiness wait, the rendering, the `Command` call, the tunnel
loop, the SSH configuration and the editor launch all succeed, then on every
schedule `Run` returns `nil`, and the events of its foreground flow are, in
this order: the readiness wait with `waitForRunning = true`, the events of
`devPodUpServer` ending with the `Command` call, the SSH configuration with
the arguments `(workspace.Context, workspace.ID, "vscode")`, two log lines,
and the launch of `code --folder-uri
vscode-remote://ssh-remote+<ID>.devpod/workspaces/<ID>`. -/
theorem Run_all_collaborators_succeed (w : World) (Command : Workspace → CommandOptions → Error)
    (workspace : Workspace) (sched : Schedule) (s : State) (t : String)
    (hwait : w.startWait (.server Command) workspace true = none)
    (hrender : w.FillTemplate w.InstallDevPodTemplate
      [("BaseUrl", w.DefaultAgentDownloadURL), ("Command", remoteCommand w workspace)]
        = .ok t)
    (hcommand : ∀ ws o, Command ws o = none)
    (htunnel : ∀ rd wr, w.StartTunnelServer rd wr false workspace.Source.LocalFolder = none)
    (hssh : w.configureSSH workspace.Context workspace.ID "vscode" = none)
    (hexec : w.execRun "code"
      ["--folder-uri",
       "vscode-remote://ssh-remote+" ++ workspace.ID ++ ".devpod/workspaces/" ++ workspace.ID]
        = none) :
    (Run w workspace (.server Command) sched s).1 = none ∧
    fgTrace (eventsSince s (Run w workspace (.server Command) sched s).2)
      = [.startWait workspace true,
         .infof "Creating devcontainer...",
         .fillTemplate w.InstallDevPodTemplate
           [("BaseUrl", w.DefaultAgentDownloadURL), ("Command", remoteCommand w workspace)],
         .pipe s.nextPipe,
         .pipe (s.nextPipe + 1),
         .goTunnel (.pipeReader s.nextPipe) (.pipeWriter (s.nextPipe + 1)) false
           workspace.Source.LocalFolder,
         .command workspace
           { Command := t, Stdin := .pipeReader (s.nextPipe + 1),
             Stdout := .pipeWriter s.nextPipe, Stderr := .osStderr },
         .configureSSH workspace.Context workspace.ID "vscode",
         .infof ("Run 'ssh " ++ workspace.ID ++ ".devpod' to ssh into the devcontainer"),
         .infof "Starting VSCode...",
         .exec "code"
           ["--folder-uri",
            "vscode-remote://ssh-remote+" ++ workspace.ID ++ ".devpod/workspaces/"
              ++ workspace.ID]] := by
  have hup : (devPodUp w (.server Command) workspace sched
      (s.emit (.startWait workspace true))).1 = none := by
    simp only [devPodUp]
    rcases devPodUpServer_result w Command workspace sched (s.emit (.startWait workspace true))
      t hrender with h | h | h
    · exact h
    · rw [h, hcommand]
    · rw [h, htunnel]
  obtain ⟨ht, hr⟩ := Run_after_devPodUp w workspace (.server Command) sched s hwait hup
  simp only [hssh, if_true] at ht hr
  refine ⟨by rw [hr]; exact hexec, ?_⟩
  obtain ⟨l0, l1, b0, b1, hs, -⟩ := devPodUpServer_ok_trace w Command workspace sched
    (s.emit (.startWait workspace true)) t hrender
  simp only [devPodUp] at ht
  rw [hs] at ht
  have he : (Run w workspace (.server Command) sched s).2.trace
      = s.trace ++ ([.startWait workspace true]
          ++ (serverEvents w workspace t s.nextPipe).take 5 ++ l0
          ++ (serverEvents w workspace t s.nextPipe).drop 5 ++ l1 ++ handOffEvents workspace) := by
    rw [ht]; simp [State.emit]
  rw [eventsSince_append _ _ _ he]
  simp only [fgTrace_append, fgTrace_background l0 b0, fgTrace_background l1 b1]
  simp [serverEvents, handOffEvents, editorArgs, templateVars, fgTrace, Event.isBackground]

/-! ## The order of the steps of `Run` -/

/-- When the readiness wait fails, `Run` returns its error and does nothing else. -/
theorem Run_wait_error (w : World) (workspace : Workspace) (provider : Provider)
    (sched : Schedule) (s : State) (e : String)
    (hwait : w.startWait provider workspace true = some e) :
    Run w workspace provider sched s = (some e, s.emit (.startWait workspace true)) := by
  simp [Run, hwait]

/-- When `devPodUp` returns an error, `Run` returns it and stops where
`devPodUp` stopped. -/
theorem Run_devPodUp_error (w : World) (workspace : Workspace) (provider : Provider)
    (sched : Schedule) (s : State) (e : String)
    (hwait : w.startWait provider workspace true = none)
    (hup : (devPodUp w provider workspace sched (s.emit (.startWait workspace true))).1 = some e) :
    Run w workspace provider sched s
      = (some e, (devPodUp w provider workspace sched (s.emit (.startWait workspace true))).2) := by
  unfold Run
  simp only [hwait, ne_eq, not_true_eq_false, if_false]
  generalize devPodUp w provider workspace sched (s.emit (.startWait workspace true)) = r at hup ⊢
  obtain ⟨e1, s1⟩ := r
  simp only at hup
  subst hup
  simp

/-! ## The variable `err` shared with the goroutine: C4, C5, C6, C9 -/

/-- C4 fails on the code. `Command` returns the error `command failed`. When
the tunnel loop returns `nil` and the goroutine stores it in `err` before the
test `err != nil`, `devPodUp` returns `nil`; when the tunnel loop returns the
error `tunnel failed` and the goroutine stores it between the test and
`return err`, `devPodUp` returns `tunnel failed`. -/
theorem C4_command_error_not_returned :
    (devPodUp World.ok (.server commandFails) wsGit Schedule.storeBeforeCheck State.init).1
      = none ∧
    (devPodUp World.tunnelFails (.server commandFails) wsGit Schedule.storeBeforeReturn
      State.init).1 = some "tunnel failed" := by
  decide

/-- C5 fails on the code in scenario B. `Command` returns an error, the tunnel
loop returns `nil` and the goroutine stores it in `err` before the test
`err != nil`: `Run` returns `nil` after configuring SSH and launching the
editor. -/
theorem C5_run_continues_after_command_error :
    Run World.ok wsGit (.server commandFails) Schedule.storeBeforeCheck State.init
      = (none,
          { trace :=
              [.startWait wsGit true,
               .infof "Creating devcontainer...",
               .fillTemplate "install"
                 [("BaseUrl", "https://example.com/agent"),
                  ("Command", "sudo /tmp/devpod agent up --id w1 --repository https://example.com/r.git")],
               .pipe 0,
               .pipe 1,
               .goTunnel (.pipeReader 0) (.pipeWriter 1) false "",
               .command wsGit
                 { Command := "https://example.com/agentsudo /tmp/devpod agent up --id w1 --repository https://example.com/r.git",
                   Stdin := .pipeReader 1, Stdout := .pipeWriter 0, Stderr := .osStderr },
               .tunnelReturned none,
               .configureSSH "default" "w1" "vscode",
               .infof "Run 'ssh w1.devpod' to ssh into the devcontainer",
               .infof "Starting VSCode...",
               .exec "code" ["--folder-uri", "vscode-remote://ssh-remote+w1.devpod/workspaces/w1"]],
            nextPipe := 2 }) := by
  decide

/-- C6 fails on the code in scenario A. The readiness wait, the rendering and
`Command` succeed; the tunnel loop returns the error `tunnel failed` and the
goroutine stores it in `err` before the test `err != nil`: `Run` returns
`tunnel failed` and neither configures SSH nor launches the editor. -/
theorem C6_run_stops_on_tunnel_error :
    Run World.tunnelFails wsGit (.server commandOk) Schedule.storeBeforeCheck State.init
      = (some "tunnel failed",
          { trace :=
              [.startWait wsGit true,
               .infof "Creating devcontainer...",
               .fillTemplate "install"
                 [("BaseUrl", "https://example.com/agent"),
                  ("Command", "sudo /tmp/devpod agent up --id w1 --repository https://example.com/r.git")],
               .pipe 0,
               .pipe 1,
               .goTunnel (.pipeReader 0) (.pipeWriter 1) false "",
               .command wsGit
                 { Command := "https://example.com/agentsudo /tmp/devpod agent up --id w1 --repository https://example.com/r.git",
                   Stdin := .pipeReader 1, Stdout := .pipeWriter 0, Stderr := .osStderr },
               .tunnelReturned (some "tunnel failed")],
            nextPipe := 2 }) := by
  decide

/-- C9 fails on the code. `Command` succeeds, the tunnel loop returns the
error `tunnel failed` and the goroutine stores it in `err` before the test
`err != nil`: `devPodUpServer` returns `tunnel failed`. -/
theorem C9_tunnel_error_returned :
    commandOk wsGit
        { Command := "https://example.com/agentsudo /tmp/devpod agent up --id w1 --repository https://example.com/r.git",
          Stdin := .pipeReader 1, Stdout := .pipeWriter 0, Stderr := .osStderr } = none ∧
    (devPodUpServer World.tunnelFails commandOk wsGit Schedule.storeBeforeCheck State.init).1
      = some "tunnel failed" := by
  decide

end DevPod
